import Mathlib

/-
Verification of the AgentCal Google Meet MCP server (google-meet-mcp-server).

The development shallowly embeds the two source modules that carry the
program logic:

* `GoogleMeetAPI` (src/unnamed/part_000, second document): the calendar
  client with `initialize`, `listMeetings`, `getMeeting`, `createMeeting`,
  `updateMeeting`, `deleteMeeting` and the mapper `_formatMeetingData`;
* the MCP dispatcher `handleCallTool` (src/google-meet-mcp-server/src/index.js).

JavaScript values that may be `undefined` are modelled as `Option`;
JavaScript truthiness on strings (`""` and `undefined` are falsy) and on
numbers (`0` and `undefined` are falsy) is made explicit through
`jsTruthyStr` / `jsTruthyNum`.  Network and file I/O are modelled as
oracles supplied in an environment (`Provider`, `InitEnv`); the effects the
code performs against these oracles (provider calls, token refreshes,
token-file writes) are returned explicitly so that claims about "no
upstream call" or "exactly one refresh" are statable.
-/

namespace AgentCal

/-- Truthiness of an optional JS string: `undefined` and `""` are falsy. -/
def jsTruthyStr : Option String → Bool
  | none => false
  | some s => s != ""

/-- Truthiness of an optional JS number (only naturals occur here):
`undefined` and `0` are falsy. -/
def jsTruthyNum : Option Nat → Bool
  | none => false
  | some n => n != 0

/-- JS `a || b` on optional strings: `b` when `a` is falsy. -/
def jsOrStr (a b : Option String) : Option String :=
  if jsTruthyStr a then a else b

/-- One entry point of the provider's conference data
(`entryPoint.entryPointType`, `entryPoint.uri`). -/
structure EntryPoint where
  entryPointType : String
  uri : Option String
deriving DecidableEq, Repr

/-- The provider's `event.conferenceData`: the `entryPoints` array may be
absent (the code reads `event.conferenceData.entryPoints || []`), and a
create payload carries `createRequest.requestId` instead. -/
structure ConferenceData where
  entryPoints : Option (List EntryPoint)
  createRequestId : Option String
deriving DecidableEq, Repr

/-- A provider-side attendee (`attendee.email`, `attendee.responseStatus`). -/
structure EventAttendee where
  email : Option String
  responseStatus : Option String
deriving DecidableEq, Repr

/-- A person reference on the event (`event.creator`, `event.organizer`);
the code only reads its `email`. -/
structure Person where
  email : Option String
deriving DecidableEq, Repr

/-- The provider's `event.start` / `event.end` object.  The Calendar API
always supplies this object on a stored event (the source's update path
assigns `event.start.dateTime` without a guard), with `dateTime`, `date`
and `timeZone` individually optional. -/
structure EventTime where
  dateTime : Option String
  date : Option String
  timeZone : Option String
deriving DecidableEq, Repr

/-- The provider's calendar event resource, restricted to the fields the
source reads or writes.  `end_` models the JS field `end`. -/
structure Event where
  id : Option String
  summary : Option String
  description : Option String
  start : EventTime
  end_ : EventTime
  attendees : Option (List EventAttendee)
  conferenceData : Option ConferenceData
  creator : Option Person
  organizer : Option Person
  created : Option String
  updated : Option String
deriving DecidableEq, Repr

/-- A tool-facing attendee (`email`, `response_status`) as built by
`_formatMeetingData`. -/
structure MeetingAttendee where
  email : Option String
  response_status : Option String
deriving DecidableEq, Repr

/-- The tool-facing Meeting object built by `_formatMeetingData`. -/
structure Meeting where
  id : Option String
  summary : String
  description : String
  meet_link : String
  start_time : Option String
  end_time : Option String
  attendees : List MeetingAttendee
  creator : Option String
  organizer : Option String
  created : Option String
  updated : Option String
deriving DecidableEq, Repr

/-- The meet-link search loop of `_formatMeetingData`: walk the entry
points, and at the FIRST one whose `entryPointType` is `"video"` take its
`uri` (which may itself be absent) and stop. -/
def findMeetLink : List EntryPoint → Option String
  | [] => none
  | ep :: rest =>
    if ep.entryPointType == "video" then ep.uri else findMeetLink rest

/-- Embedding of `GoogleMeetAPI._formatMeetingData` (part_000 lines
445-485): null when `conferenceData` is absent; otherwise search the entry
points for a video link, and null again when the resulting `meetLink` is
falsy (absent or `""`); otherwise build the Meeting. -/
def formatMeetingData (event : Event) : Option Meeting :=
  match event.conferenceData with
  | none => none
  | some cd =>
    let meetLink := findMeetLink (cd.entryPoints.getD [])
    if jsTruthyStr meetLink then
      some
        { id := event.id
          summary := event.summary.getD ""
          description := event.description.getD ""
          meet_link := meetLink.getD ""
          start_time := jsOrStr event.start.dateTime event.start.date
          end_time := jsOrStr event.end_.dateTime event.end_.date
          attendees := (event.attendees.getD []).map fun a =>
            { email := a.email, response_status := a.responseStatus }
          creator := event.creator.bind Person.email
          organizer := event.organizer.bind Person.email
          created := event.created
          updated := event.updated }
    else none

/-- Spec-side notion used by the claims: the event carries conferencing
data and that data contains an entry point of type "video". -/
def hasVideoEntryPoint (event : Event) : Bool :=
  match event.conferenceData with
  | none => false
  | some cd => (cd.entryPoints.getD []).any fun ep => ep.entryPointType == "video"

/-- Spec-side, loop-free description of the link the code extracts: the
`uri` of the first entry point of type "video", if any. -/
def firstVideoUri (event : Event) : Option String :=
  event.conferenceData.bind fun cd =>
    ((cd.entryPoints.getD []).find? fun ep => ep.entryPointType == "video").bind
      EntryPoint.uri

theorem findMeetLink_eq_find (eps : List EntryPoint) :
    findMeetLink eps =
      (eps.find? fun ep => ep.entryPointType == "video").bind EntryPoint.uri := by
  induction eps with
  | nil => rfl
  | cons ep rest ih =>
    by_cases h : ep.entryPointType == "video"
    · simp [findMeetLink, List.find?, h]
    · simp only [Bool.not_eq_true] at h
      simp [findMeetLink, List.find?, h, ih]

theorem formatMeetingData_none_of_no_video (event : Event)
    (h : hasVideoEntryPoint event = false) : formatMeetingData event = none := by
  unfold formatMeetingData
  cases hcd : event.conferenceData with
  | none => rfl
  | some cd =>
    unfold hasVideoEntryPoint at h
    rw [hcd] at h
    have hfind : (cd.entryPoints.getD []).find?
        (fun ep => ep.entryPointType == "video") = none := by
      rw [List.find?_eq_none]
      intro ep hep
      have := List.any_eq_false.mp h ep hep
      simpa using this
    simp [findMeetLink_eq_find, hfind, jsTruthyStr]

/-- An event whose conference data has a video entry point with an absent
`uri`: the claim C1 predicts a Meeting, the code returns null. -/
def c1BadEvent : Event :=
  { id := some "evt-c1"
    summary := some "standup"
    description := none
    start := { dateTime := some "2025-01-10T09:00:00Z", date := none, timeZone := none }
    end_ := { dateTime := some "2025-01-10T09:30:00Z", date := none, timeZone := none }
    attendees := none
    conferenceData := some
      { entryPoints := some [{ entryPointType := "video", uri := none }]
        createRequestId := none }
    creator := none
    organizer := none
    created := none
    updated := none }

/-- C1 counterexample: `c1BadEvent` carries conferencing data containing an
entry point of type "video", yet `_formatMeetingData` returns null — so the
mapping does NOT return null exactly when conferencing data or a video
entry point is missing. -/
theorem c1_format_counterexample :
    ¬ (formatMeetingData c1BadEvent = none ↔
        (c1BadEvent.conferenceData = none ∨ hasVideoEntryPoint c1BadEvent = false)) := by
  decide

/-- C1 (amended): `_formatMeetingData` returns null exactly when the event
has no conferencing data, or the uri extracted at the first entry point of
type "video" (absent when there is no such entry point) is absent or empty;
otherwise it returns a Meeting whose `meet_link` is that first video entry
point's uri, whose `summary` and `description` default to `""` when absent,
and whose attendees list maps the provider's attendee list 1:1 in order. -/
theorem jsTruthyStr_some_getD (l : Option String) (h : jsTruthyStr l = true) :
    some (l.getD "") = l := by
  cases l with
  | none => simp [jsTruthyStr] at h
  | some s => rfl

theorem c1_format_characterization (event : Event) :
    (formatMeetingData event = none ↔
      (event.conferenceData = none ∨ jsTruthyStr (firstVideoUri event) = false)) ∧
    (∀ m, formatMeetingData event = some m →
      some m.meet_link = firstVideoUri event ∧
      m.summary = event.summary.getD "" ∧
      m.description = event.description.getD "" ∧
      m.attendees = (event.attendees.getD []).map fun a =>
        { email := a.email, response_status := a.responseStatus }) := by
  cases hcd : event.conferenceData with
  | none =>
    constructor
    · simp [formatMeetingData, hcd]
    · intro m hm
      simp [formatMeetingData, hcd] at hm
  | some cd =>
    have hl : findMeetLink (cd.entryPoints.getD []) = firstVideoUri event := by
      simp [firstVideoUri, hcd, findMeetLink_eq_find]
    cases htr : jsTruthyStr (findMeetLink (cd.entryPoints.getD [])) with
    | false =>
      constructor
      · constructor
        · intro _
          right
          rw [← hl]
          exact htr
        · intro _
          simp [formatMeetingData, hcd, htr]
      · intro m hm
        simp [formatMeetingData, hcd, htr] at hm
    | true =>
      constructor
      · constructor
        · intro h
          simp [formatMeetingData, hcd, htr] at h
        · intro h
          rcases h with h | h
          · exact absurd h (by simp [hcd])
          · rw [← hl] at h
            rw [htr] at h
            exact absurd h (by simp)
      · intro m hm
        simp only [formatMeetingData, hcd, htr, if_true] at hm
        injection hm with hm2
        subst hm2
        refine ⟨?_, rfl, rfl, rfl⟩
        rw [← hl]
        exact jsTruthyStr_some_getD _ htr

/-- An event that maps successfully, used to witness the amended C1. -/
def c1GoodEvent : Event :=
  { id := some "evt-ok"
    summary := some "standup"
    description := none
    start := { dateTime := some "2025-01-10T09:00:00Z", date := none, timeZone := none }
    end_ := { dateTime := some "2025-01-10T09:30:00Z", date := none, timeZone := none }
    attendees := some [{ email := some "a@x.com", responseStatus := some "accepted" }]
    conferenceData := some
      { entryPoints := some
          [{ entryPointType := "phone", uri := some "tel:+1" },
           { entryPointType := "video", uri := some "https://meet.example/abc" }]
        createRequestId := none }
    creator := some { email := some "a@x.com" }
    organizer := none
    created := some "2025-01-01T00:00:00Z"
    updated := some "2025-01-02T00:00:00Z" }

/-- The Meeting `_formatMeetingData` produces for `c1GoodEvent`. -/
def c1GoodMeeting : Meeting :=
  { id := some "evt-ok"
    summary := "standup"
    description := ""
    meet_link := "https://meet.example/abc"
    start_time := some "2025-01-10T09:00:00Z"
    end_time := some "2025-01-10T09:30:00Z"
    attendees := [{ email := some "a@x.com", response_status := some "accepted" }]
    creator := some "a@x.com"
    organizer := none
    created := some "2025-01-01T00:00:00Z"
    updated := some "2025-01-02T00:00:00Z" }

theorem c1_format_characterization_witness :
    some c1GoodMeeting.meet_link = firstVideoUri c1GoodEvent ∧
    c1GoodMeeting.summary = c1GoodEvent.summary.getD "" ∧
    c1GoodMeeting.description = c1GoodEvent.description.getD "" ∧
    c1GoodMeeting.attendees = (c1GoodEvent.attendees.getD []).map (fun a =>
      { email := a.email, response_status := a.responseStatus }) :=
  (c1_format_characterization c1GoodEvent).2 c1GoodMeeting (by decide)

/-- The calendar provider (the `this.calendar.events` surface), modelled
as an oracle: each operation either fails with an error message or returns
the provider's data.  Query parameters that only select which events the
provider returns (`maxResults`, `timeMin`, `timeMax`, `orderBy`,
`singleEvents`, `conferenceDataVersion`) are absorbed into the oracle. -/
structure Provider where
  listItems : Except String (Option (List Event))
  getEvent : String → Except String Event
  insertEvent : Event → Except String Event
  updateEvent : String → Event → Except String Event
  deleteEvent : String → Except String Unit

/-- One upstream calendar operation actually performed during a call. -/
inductive ProviderOp where
  | list : ProviderOp
  | fetch (eventId : String) : ProviderOp
  | insert (payload : Event) : ProviderOp
  | update (eventId : String) (payload : Event) : ProviderOp
  | delete (eventId : String) : ProviderOp
deriving DecidableEq, Repr

/-- The filter-and-map loop of `listMeetings` (part_000 lines 237-246):
keep events with `conferenceData`, map each through `_formatMeetingData`,
drop the events that map to null, preserving order. -/
def collectMeetings : List Event → List Meeting
  | [] => []
  | event :: rest =>
    match event.conferenceData with
    | none => collectMeetings rest
    | some _ =>
      match formatMeetingData event with
      | none => collectMeetings rest
      | some meeting => meeting :: collectMeetings rest

/-- Embedding of `GoogleMeetAPI.listMeetings` (part_000 lines 213-252):
`response.data.items || []`, filter/map/drop, and the catch-all that
re-throws provider failures with an `Error listing meetings:` prefix. -/
def listMeetings (prov : Provider) : Except String (List Meeting) × List ProviderOp :=
  match prov.listItems with
  | .error e => (.error ("Error listing meetings: " ++ e), [.list])
  | .ok items => (.ok (collectMeetings (items.getD [])), [.list])

/-- Embedding of `GoogleMeetAPI.getMeeting` (part_000 lines 259-286):
fetch the event; error when it has no `conferenceData`; error when the
mapper returns null; the catch-all prefixes every failure with
`Error getting meeting:`. -/
def getMeeting (prov : Provider) (meetingId : String) :
    Except String Meeting × List ProviderOp :=
  match prov.getEvent meetingId with
  | .error e => (.error ("Error getting meeting: " ++ e), [.fetch meetingId])
  | .ok event =>
    match event.conferenceData with
    | none =>
      (.error ("Error getting meeting: Event with ID " ++ meetingId ++
        " does not have Google Meet conferencing data"), [.fetch meetingId])
    | some _ =>
      match formatMeetingData event with
      | none =>
        (.error ("Error getting meeting: Failed to format meeting data for event ID " ++
          meetingId), [.fetch meetingId])
      | some meeting => (.ok meeting, [.fetch meetingId])

/-- The insert payload built by `createMeeting` (part_000 lines 306-327):
attendee emails become `[..] of single-field objects`, and the conference
creation request carries a request id derived from the current time. -/
def buildCreateEvent (nowMs : Nat) (summary startTime endTime description : String)
    (attendees : List String) (timeZone : String) : Event :=
  { id := none
    summary := some summary
    description := some description
    start := { dateTime := some startTime, date := none, timeZone := some timeZone }
    end_ := { dateTime := some endTime, date := none, timeZone := some timeZone }
    attendees := some (attendees.map fun email => { email := some email, responseStatus := none })
    conferenceData := some
      { entryPoints := none, createRequestId := some ("meet-" ++ toString nowMs) }
    creator := none
    organizer := none
    created := none
    updated := none }

/-- Embedding of `GoogleMeetAPI.createMeeting` (part_000 lines 298-353):
insert the built event; error when the created event has no
`conferenceData`; error when the mapper returns null; the catch-all
prefixes every failure with `Error creating meeting:`. -/
def createMeeting (prov : Provider) (nowMs : Nat)
    (summary startTime endTime description : String)
    (attendees : List String) (timeZone : String) :
    Except String Meeting × List ProviderOp :=
  let event := buildCreateEvent nowMs summary startTime endTime description attendees timeZone
  match prov.insertEvent event with
  | .error e => (.error ("Error creating meeting: " ++ e), [.insert event])
  | .ok createdEvent =>
    match createdEvent.conferenceData with
    | none =>
      (.error "Error creating meeting: Failed to create Google Meet conferencing data",
        [.insert event])
    | some _ =>
      match formatMeetingData createdEvent with
      | none =>
        (.error "Error creating meeting: Failed to format meeting data for newly created event",
          [.insert event])
      | some meeting => (.ok meeting, [.insert event])

/-- The update payload carried into `updateMeeting` after the dispatcher's
destructuring: each field is present (`some`) exactly when the caller
passed it, with `some ""` distinct from absent. -/
structure UpdateData where
  summary : Option String
  description : Option String
  startTime : Option String
  endTime : Option String
  attendees : Option (List String)
deriving DecidableEq, Repr

/-- The field-patching block of `updateMeeting` (part_000 lines 374-393):
each `if (field !== undefined)` assignment, applied to the freshly fetched
event. -/
def applyUpdate (event : Event) (u : UpdateData) : Event :=
  { event with
    summary := match u.summary with
      | some s => some s
      | none => event.summary
    description := match u.description with
      | some s => some s
      | none => event.description
    start := match u.startTime with
      | some s => { event.start with dateTime := some s }
      | none => event.start
    end_ := match u.endTime with
      | some s => { event.end_ with dateTime := some s }
      | none => event.end_
    attendees := match u.attendees with
      | some l => some (l.map fun email => { email := some email, responseStatus := none })
      | none => event.attendees }

/-- Embedding of `GoogleMeetAPI.updateMeeting` (part_000 lines 361-420):
fetch the event, patch the provided fields, write the patched resource
back, then apply the same conferencing checks as create; the catch-all
prefixes every failure with `Error updating meeting:`. -/
def updateMeeting (prov : Provider) (meetingId : String) (u : UpdateData) :
    Except String Meeting × List ProviderOp :=
  match prov.getEvent meetingId with
  | .error e => (.error ("Error updating meeting: " ++ e), [.fetch meetingId])
  | .ok event =>
    let payload := applyUpdate event u
    match prov.updateEvent meetingId payload with
    | .error e =>
      (.error ("Error updating meeting: " ++ e),
        [.fetch meetingId, .update meetingId payload])
    | .ok updatedEvent =>
      match updatedEvent.conferenceData with
      | none =>
        (.error "Error updating meeting: Updated event does not have Google Meet conferencing data",
          [.fetch meetingId, .update meetingId payload])
      | some _ =>
        match formatMeetingData updatedEvent with
        | none =>
          (.error "Error updating meeting: Failed to format meeting data for updated event",
            [.fetch meetingId, .update meetingId payload])
        | some meeting => (.ok meeting, [.fetch meetingId, .update meetingId payload])

/-- Embedding of `GoogleMeetAPI.deleteMeeting` (part_000 lines 427-438). -/
def deleteMeeting (prov : Provider) (meetingId : String) :
    Except String Bool × List ProviderOp :=
  match prov.deleteEvent meetingId with
  | .error e => (.error ("Error deleting meeting: " ++ e), [.delete meetingId])
  | .ok _ => (.ok true, [.delete meetingId])

theorem formatMeetingData_none_of_no_conference (event : Event)
    (h : event.conferenceData = none) : formatMeetingData event = none := by
  unfold formatMeetingData
  rw [h]

theorem collectMeetings_eq_filterMap (events : List Event) :
    collectMeetings events = events.filterMap formatMeetingData := by
  induction events with
  | nil => rfl
  | cons event rest ih =>
    cases hcd : event.conferenceData with
    | none =>
      have hfmt : formatMeetingData event = none :=
        formatMeetingData_none_of_no_conference event hcd
      simp [collectMeetings, hcd, List.filterMap_cons, hfmt, ih]
    | some cd =>
      cases hfmt : formatMeetingData event with
      | none => simp [collectMeetings, hcd, hfmt, List.filterMap_cons, ih]
      | some meeting => simp [collectMeetings, hcd, hfmt, List.filterMap_cons, ih]

/-- C2: the meetings returned by `listMeetings` are exactly the events
mapped through the Meeting Mapper in provider order with null mappings
dropped; pre-filtering away every event lacking a "video" entry point
changes nothing (so no such event ever contributes an entry); and a
provider success never becomes an error, whatever the events are. -/
theorem c2_list_meetings_filter (prov : Provider) (events : List Event) :
    collectMeetings events = events.filterMap formatMeetingData ∧
    collectMeetings events =
      (events.filter fun e => hasVideoEntryPoint e).filterMap formatMeetingData ∧
    (listMeetings prov).1 =
      (prov.listItems.mapError fun e => "Error listing meetings: " ++ e).map
        fun items => collectMeetings (items.getD []) := by
  refine ⟨collectMeetings_eq_filterMap events, ?_, ?_⟩
  · rw [collectMeetings_eq_filterMap]
    induction events with
    | nil => rfl
    | cons event rest ih =>
      cases hv : hasVideoEntryPoint event with
      | false =>
        have hfmt : formatMeetingData event = none :=
          formatMeetingData_none_of_no_video event hv
        simp [List.filterMap_cons, List.filter_cons, hv, hfmt, ih]
      | true =>
        simp [List.filterMap_cons, List.filter_cons, hv, ih]
  · unfold listMeetings
    cases prov.listItems with
    | error e => rfl
    | ok items => rfl

/-- A fetched event with conference data but no video entry point,
exercising the `getMeeting` format-failure path. -/
def c3PhoneEvent : Event :=
  { id := some "evt-c3"
    summary := some "call"
    description := none
    start := { dateTime := some "2025-01-10T09:00:00Z", date := none, timeZone := none }
    end_ := { dateTime := some "2025-01-10T09:30:00Z", date := none, timeZone := none }
    attendees := none
    conferenceData := some
      { entryPoints := some [{ entryPointType := "phone", uri := some "tel:+1" }]
        createRequestId := none }
    creator := none
    organizer := none
    created := none
    updated := none }

theorem getMeeting_error_cases (prov : Provider) (meetingId : String) (event : Event)
    (hget : prov.getEvent meetingId = .ok event)
    (hbad : event.conferenceData = none ∨ formatMeetingData event = none) :
    (getMeeting prov meetingId).1 =
      .error ("Error getting meeting: Event with ID " ++ meetingId ++
        " does not have Google Meet conferencing data") ∨
    (getMeeting prov meetingId).1 =
      .error ("Error getting meeting: Failed to format meeting data for event ID " ++
        meetingId) := by
  unfold getMeeting
  rw [hget]
  cases hcd : event.conferenceData with
  | none =>
    left
    simp [hcd]
  | some cd =>
    rcases hbad with hbad | hbad
    · rw [hbad] at hcd
      exact absurd hcd (by simp)
    · right
      simp [hcd, hbad]

/-- C7: the payload `updateMeeting` writes back is the freshly fetched
event with exactly the provided fields replaced: a `some` field (even
`some ""`) overwrites, an absent field leaves the fetched value, and every
other part of the event (id, conference data, start/end `date` and
`timeZone`, creator, organizer, created, updated) is carried through
unchanged. -/
theorem c7_update_read_modify_write (prov : Provider) (meetingId : String)
    (u : UpdateData) (event : Event)
    (hget : prov.getEvent meetingId = .ok event) :
    ∃ payload,
      (updateMeeting prov meetingId u).2 =
        [.fetch meetingId, .update meetingId payload] ∧
      payload.summary = (u.summary <|> event.summary) ∧
      payload.description = (u.description <|> event.description) ∧
      payload.start.dateTime = (u.startTime <|> event.start.dateTime) ∧
      payload.start.date = event.start.date ∧
      payload.start.timeZone = event.start.timeZone ∧
      payload.end_.dateTime = (u.endTime <|> event.end_.dateTime) ∧
      payload.end_.date = event.end_.date ∧
      payload.end_.timeZone = event.end_.timeZone ∧
      payload.attendees =
        ((u.attendees.map fun l => l.map fun email =>
          { email := some email, responseStatus := none }) <|> event.attendees) ∧
      payload.id = event.id ∧
      payload.conferenceData = event.conferenceData ∧
      payload.creator = event.creator ∧
      payload.organizer = event.organizer ∧
      payload.created = event.created ∧
      payload.updated = event.updated := by
  obtain ⟨us, ud, ust, uet, ua⟩ := u
  refine ⟨applyUpdate event ⟨us, ud, ust, uet, ua⟩,
    ?_, ?_, ?_, ?_, ?_, ?_, ?_, ?_, ?_, ?_, ?_, ?_, ?_, ?_, ?_, ?_⟩
  · unfold updateMeeting
    rw [hget]
    cases hup : prov.updateEvent meetingId (applyUpdate event ⟨us, ud, ust, uet, ua⟩) with
    | error e => simp [hup]
    | ok updatedEvent =>
      cases hcd : updatedEvent.conferenceData with
      | none => simp [hup, hcd]
      | some cd =>
        cases hfmt : formatMeetingData updatedEvent with
        | none => simp [hup, hcd, hfmt]
        | some meeting => simp [hup, hcd, hfmt]
  · cases us <;> rfl
  · cases ud <;> rfl
  · cases ust <;> rfl
  · cases ust <;> rfl
  · cases ust <;> rfl
  · cases uet <;> rfl
  · cases uet <;> rfl
  · cases uet <;> rfl
  · cases ua <;> rfl
  · rfl
  · rfl
  · rfl
  · rfl
  · rfl
  · rfl

/-- A stored event with a filled description and a video link, fetched by
the update scenario witnessing C7. -/
def c7StoredEvent : Event :=
  { id := some "evt1"
    summary := some "old title"
    description := some "old description"
    start := { dateTime := some "2025-01-10T09:00:00Z", date := none, timeZone := some "UTC" }
    end_ := { dateTime := some "2025-01-10T09:30:00Z", date := none, timeZone := some "UTC" }
    attendees := some [{ email := some "a@x.com", responseStatus := some "accepted" }]
    conferenceData := some
      { entryPoints := some [{ entryPointType := "video", uri := some "https://meet.example/x" }]
        createRequestId := none }
    creator := some { email := some "a@x.com" }
    organizer := some { email := some "a@x.com" }
    created := some "2025-01-01T00:00:00Z"
    updated := some "2025-01-02T00:00:00Z" }

/-- The provider double used by the C7 and C8 witnesses: `get` returns the
stored event, `update` echoes the payload back, `insert` returns an event
without conferencing data. -/
def c7Provider : Provider :=
  { listItems := .ok none
    getEvent := fun _ => .ok c7StoredEvent
    insertEvent := fun payload => .ok { payload with conferenceData := none }
    updateEvent := fun _ payload => .ok payload
    deleteEvent := fun _ => .ok () }

theorem c7_update_read_modify_write_witness :
    ∃ payload,
      (updateMeeting c7Provider "evt1"
        { summary := none, description := some "", startTime := none,
          endTime := none, attendees := none }).2 =
        [.fetch "evt1", .update "evt1" payload] ∧
      payload.summary = (none <|> c7StoredEvent.summary) ∧
      payload.description = (some "" <|> c7StoredEvent.description) ∧
      payload.start.dateTime = (none <|> c7StoredEvent.start.dateTime) ∧
      payload.start.date = c7StoredEvent.start.date ∧
      payload.start.timeZone = c7StoredEvent.start.timeZone ∧
      payload.end_.dateTime = (none <|> c7StoredEvent.end_.dateTime) ∧
      payload.end_.date = c7StoredEvent.end_.date ∧
      payload.end_.timeZone = c7StoredEvent.end_.timeZone ∧
      payload.attendees =
        ((Option.map (fun l : List String => l.map fun email =>
          { email := some email, responseStatus := none }) none) <|> c7StoredEvent.attendees) ∧
      payload.id = c7StoredEvent.id ∧
      payload.conferenceData = c7StoredEvent.conferenceData ∧
      payload.creator = c7StoredEvent.creator ∧
      payload.organizer = c7StoredEvent.organizer ∧
      payload.created = c7StoredEvent.created ∧
      payload.updated = c7StoredEvent.updated :=
  c7_update_read_modify_write c7Provider "evt1"
    { summary := none, description := some "", startTime := none,
      endTime := none, attendees := none } c7StoredEvent rfl

/-- C8: when the event the provider returns from `insert` (for create) or
from `update` (for update) lacks conferencing data or maps to null, the
operation yields an error, never a successful Meeting. -/
theorem c8_post_checks (prov : Provider) (nowMs : Nat)
    (summary startTime endTime description : String)
    (attendees : List String) (timeZone : String)
    (meetingId : String) (u : UpdateData) :
    (∀ createdEvent,
      prov.insertEvent (buildCreateEvent nowMs summary startTime endTime description
        attendees timeZone) = .ok createdEvent →
      (createdEvent.conferenceData = none ∨ formatMeetingData createdEvent = none) →
      ∃ msg, (createMeeting prov nowMs summary startTime endTime description
        attendees timeZone).1 = .error msg) ∧
    (∀ event updatedEvent,
      prov.getEvent meetingId = .ok event →
      prov.updateEvent meetingId (applyUpdate event u) = .ok updatedEvent →
      (updatedEvent.conferenceData = none ∨ formatMeetingData updatedEvent = none) →
      ∃ msg, (updateMeeting prov meetingId u).1 = .error msg) := by
  constructor
  · intro createdEvent hins hbad
    cases hcd : createdEvent.conferenceData with
    | none =>
      exact ⟨"Error creating meeting: Failed to create Google Meet conferencing data",
        by simp [createMeeting, hins, hcd]⟩
    | some cd =>
      rcases hbad with hbad | hbad
      · rw [hbad] at hcd
        exact absurd hcd (by simp)
      · exact ⟨"Error creating meeting: Failed to format meeting data for newly created event",
          by simp [createMeeting, hins, hcd, hbad]⟩
  · intro event updatedEvent hget hup hbad
    cases hcd : updatedEvent.conferenceData with
    | none =>
      exact ⟨"Error updating meeting: Updated event does not have Google Meet conferencing data",
        by simp [updateMeeting, hget, hup, hcd]⟩
    | some cd =>
      rcases hbad with hbad | hbad
      · rw [hbad] at hcd
        exact absurd hcd (by simp)
      · exact ⟨"Error updating meeting: Failed to format meeting data for updated event",
          by simp [updateMeeting, hget, hup, hcd, hbad]⟩

theorem c8_post_checks_witness :
    ∃ msg, (createMeeting c7Provider 1000 "Standup" "2025-01-10T09:00:00Z"
      "2025-01-10T09:30:00Z" "" [] "UTC").1 = .error msg :=
  (c8_post_checks c7Provider 1000 "Standup" "2025-01-10T09:00:00Z"
      "2025-01-10T09:30:00Z" "" [] "UTC" "evt1"
      { summary := none, description := none, startTime := none,
        endTime := none, attendees := none }).1
    _ rfl (Or.inl rfl)

/-- OAuth client credentials as read from the credentials file. -/
structure Credentials where
  client_id : String
  client_secret : String
  redirect_uris : List String
deriving DecidableEq, Repr

/-- The on-disk credentials file: a `web` or `installed` wrapper around the
credential data. -/
structure CredsFile where
  web : Option Credentials
  installed : Option Credentials
deriving DecidableEq, Repr

/-- The on-disk token file; `expiry_date` is a millisecond timestamp that
may be absent. -/
structure Token where
  access_token : Option String
  refresh_token : Option String
  expiry_date : Option Nat
deriving DecidableEq, Repr

/-- The environment `initialize` runs against: the outcome of reading and
parsing the credentials file, the outcome of reading and parsing the token
file (`none` when either fails), the current time `Date.now()`, and the
outcome the OAuth endpoint would give to a refresh call (`none` when the
refresh fails). -/
structure InitEnv where
  credsFile : Except String CredsFile
  tokenFile : Option Token
  now : Nat
  refreshResult : Option Token

/-- Side effects of one `initialize` run: how many refresh calls were
issued and how many token files were written. -/
structure InitEffects where
  refreshCalls : Nat
  tokenWrites : Nat
deriving DecidableEq, Repr

/-- Embedding of `GoogleMeetAPI.initialize` (part_000 lines 161-204): read
credentials (a parse failure propagates; a file with neither `web` nor
`installed` is an error); inside the inner try, read the token (a failure
is caught and reported as `No valid credentials...`); when
`token.expiry_date` is truthy (present and nonzero) AND less than
`Date.now()`, call the refresh endpoint and persist its result (a refresh
failure is caught by the same handler); finally the calendar client is
built.  The effect counters record the refresh calls and token writes. -/
def initSession (env : InitEnv) : Except String Unit × InitEffects :=
  match env.credsFile with
  | .error e => (.error e, ⟨0, 0⟩)
  | .ok creds =>
    match creds.web <|> creds.installed with
    | none =>
      (.error "Invalid credentials file format. Must contain \"web\" or \"installed\" property.",
        ⟨0, 0⟩)
    | some _ =>
      match env.tokenFile with
      | none =>
        (.error "No valid credentials. Please run the setup script first to authorize access.",
          ⟨0, 0⟩)
      | some token =>
        if jsTruthyNum token.expiry_date && decide (token.expiry_date.getD 0 < env.now) then
          match env.refreshResult with
          | none =>
            (.error "No valid credentials. Please run the setup script first to authorize access.",
              ⟨1, 0⟩)
          | some _ => (.ok (), ⟨1, 1⟩)
        else (.ok (), ⟨0, 0⟩)

/-- A well-formed credentials file used by the session examples. -/
def sampleCreds : CredsFile :=
  { web := some { client_id := "id", client_secret := "s", redirect_uris := ["http://localhost:3000"] }
    installed := none }

/-- A refreshed token as the OAuth endpoint would return it. -/
def freshToken : Token :=
  { access_token := some "fresh", refresh_token := some "r", expiry_date := some 2000000 }

/-- A stored token whose `expiry_date` is the epoch value 0. -/
def c6ZeroToken : Token :=
  { access_token := some "a", refresh_token := some "r", expiry_date := some 0 }

/-- A stored token expired at timestamp 5. -/
def c6ExpiredToken : Token :=
  { access_token := some "a", refresh_token := some "r", expiry_date := some 5 }

/-- An environment whose stored token has `expiry_date = 0`: an expiry
timestamp strictly in the past (`0 < now`), with a refresh available. -/
def c6ZeroExpiryEnv : InitEnv :=
  { credsFile := .ok sampleCreds
    tokenFile := some c6ZeroToken
    now := 1000
    refreshResult := some freshToken }

/-- C6 counterexample: the loaded token's expiry timestamp (0) is in the
past, yet `initialize` performs no refresh call and writes no token file —
because the code guards the refresh with JS truthiness of `expiry_date`,
under which 0 is falsy. -/
theorem c6_zero_expiry_counterexample :
    (∃ t, c6ZeroExpiryEnv.tokenFile = some t ∧
      ∃ e, t.expiry_date = some e ∧ e < c6ZeroExpiryEnv.now) ∧
    initSession c6ZeroExpiryEnv = (.ok (), ⟨0, 0⟩) :=
  ⟨⟨c6ZeroToken, rfl, 0, rfl, by decide⟩, by rfl⟩

/-- C6 (amended): with readable, well-formed credentials and a readable
token, `initialize` makes exactly one refresh call — persisting exactly one
updated token file when the refresh succeeds, and none (failing) when the
refresh fails — precisely when the token's expiry timestamp is present,
nonzero, and earlier than the current time; in every other case it makes no
refresh call and writes no token file. -/
theorem c6_refresh_on_expiry (env : InitEnv) (creds : CredsFile) (token : Token)
    (hc : env.credsFile = .ok creds)
    (hw : (creds.web <|> creds.installed).isSome = true)
    (ht : env.tokenFile = some token) :
    ((jsTruthyNum token.expiry_date = true ∧ token.expiry_date.getD 0 < env.now) →
      ((∀ t, env.refreshResult = some t → initSession env = (.ok (), ⟨1, 1⟩)) ∧
       (env.refreshResult = none →
         (initSession env).2 = ⟨1, 0⟩ ∧ (initSession env).1 =
           .error "No valid credentials. Please run the setup script first to authorize access."))) ∧
    (¬ (jsTruthyNum token.expiry_date = true ∧ token.expiry_date.getD 0 < env.now) →
      initSession env = (.ok (), ⟨0, 0⟩)) := by
  obtain ⟨w, hwsome⟩ := Option.isSome_iff_exists.mp hw
  constructor
  · intro hexp
    have hcond : (jsTruthyNum token.expiry_date &&
        decide (token.expiry_date.getD 0 < env.now)) = true := by
      rw [hexp.1]
      simpa using hexp.2
    constructor
    · intro t hrt
      simp [initSession, hc, hwsome, ht, hcond, hrt]
    · intro hrt
      constructor
      · simp [initSession, hc, hwsome, ht, hcond, hrt]
      · simp [initSession, hc, hwsome, ht, hcond, hrt]
  · intro hexp
    have hcond : (jsTruthyNum token.expiry_date &&
        decide (token.expiry_date.getD 0 < env.now)) = false := by
      rcases Bool.eq_false_or_eq_true (jsTruthyNum token.expiry_date) with h | h
      · have hnlt : ¬ token.expiry_date.getD 0 < env.now := fun hlt => hexp ⟨h, hlt⟩
        simp [h, decide_eq_false hnlt]
      · simp [h]
    simp [initSession, hc, hwsome, ht, hcond]

/-- An environment with a genuinely expired (truthy) token and a working
refresh endpoint, witnessing the amended C6. -/
def c6ExpiredEnv : InitEnv :=
  { credsFile := .ok sampleCreds
    tokenFile := some c6ExpiredToken
    now := 1000
    refreshResult := some freshToken }

theorem c6_refresh_on_expiry_witness :
    initSession c6ExpiredEnv = (.ok (), ⟨1, 1⟩) :=
  ((c6_refresh_on_expiry c6ExpiredEnv sampleCreds c6ExpiredToken
      rfl (by decide) rfl).1 (by decide)).1 freshToken rfl

/-- MCP protocol error codes used by the dispatcher. -/
inductive ErrorCode where
  | methodNotFound : ErrorCode
  | invalidParams : ErrorCode
deriving DecidableEq, Repr

/-- A thrown `McpError`: protocol-level, delivered to the transport as a
throw, not as a response envelope. -/
structure McpError where
  code : ErrorCode
  message : String
deriving DecidableEq, Repr

/-- The payload of a response envelope.  A success serializes the
meeting(s) (`JSON.stringify`), modelled by carrying the value itself;
errors and the delete acknowledgment are plain text. -/
inductive Content where
  | meetingList (ms : List Meeting) : Content
  | meetingItem (m : Meeting) : Content
  | text (s : String) : Content
deriving DecidableEq, Repr

/-- A response envelope: content plus the `isError` flag (absent in JS on
success, which is falsy — modelled as `false`). -/
structure Envelope where
  content : Content
  isError : Bool
deriving DecidableEq, Repr

/-- The argument object of a tool call (`request.params.arguments || {}`),
with every property optional. -/
structure ToolArgs where
  max_results : Option Nat
  time_min : Option String
  time_max : Option String
  meeting_id : Option String
  summary : Option String
  description : Option String
  start_time : Option String
  end_time : Option String
  attendees : Option (List String)
  time_zone : Option String
deriving DecidableEq, Repr

/-- An argument object with no property set. -/
def noArgs : ToolArgs :=
  { max_results := none, time_min := none, time_max := none, meeting_id := none
    summary := none, description := none, start_time := none, end_time := none
    attendees := none, time_zone := none }

/-- One incoming tool call: `request.params.name` and arguments. -/
structure Request where
  name : String
  args : ToolArgs

/-- The names in the fixed tool registry (`handleListTools`). -/
def toolNames : List String :=
  ["list_meetings", "get_meeting", "create_meeting", "update_meeting", "delete_meeting"]

/-- The missing-required-parameter list computed by the `create_meeting`
branch: presence is decided by JS truthiness (`!summary` etc.), and the
names are pushed in the order summary, start_time, end_time. -/
def missingCreateParams (args : ToolArgs) : List String :=
  (if jsTruthyStr args.summary then [] else ["summary"]) ++
  (if jsTruthyStr args.start_time then [] else ["start_time"]) ++
  (if jsTruthyStr args.end_time then [] else ["end_time"])

/-- The `updateData` object the `update_meeting` branch builds with its
`!== undefined` checks: each property is copied exactly when present. -/
def updateDataOfArgs (args : ToolArgs) : UpdateData :=
  { summary := args.summary
    description := args.description
    startTime := args.start_time
    endTime := args.end_time
    attendees := args.attendees }

/-- `Object.keys(updateData).length === 0`: no updatable field present. -/
def updateDataEmpty (u : UpdateData) : Bool :=
  u.summary.isNone && u.description.isNone && u.startTime.isNone &&
    u.endTime.isNone && u.attendees.isNone

/-- The `meeting_id is required` protocol error thrown by the get, update
and delete branches. -/
def errMeetingIdRequired : McpError :=
  { code := .invalidParams, message := "meeting_id is required" }

/-- The aggregated missing-required-parameters protocol error of the
create branch. -/
def errMissingCreate (args : ToolArgs) : McpError :=
  { code := .invalidParams
    message := "Missing required parameters: " ++
      String.intercalate ", " (missingCreateParams args) }

/-- The protocol error thrown when `update_meeting` receives no updatable
field. -/
def errNoUpdateFields : McpError :=
  { code := .invalidParams, message := "At least one field to update must be provided" }

/-- The protocol error thrown for a tool name outside the registry. -/
def errUnknownTool (name : String) : McpError :=
  { code := .methodNotFound, message := "Unknown tool: " ++ name }

/-- The tool dispatch of `handleCallTool` (index.js lines 242-401), run
once a calendar client exists: the name-keyed if/else chain, per-tool
required-argument checks throwing `McpError`s, calls into the API layer,
and the surrounding catch that re-throws `McpError`s and converts every
other failure into an `isError` envelope with text `Error: <message>`. -/
def dispatch (prov : Provider) (nowMs : Nat) (req : Request) :
    Except McpError Envelope × List ProviderOp :=
  let args := req.args
  if req.name = "list_meetings" then
    match listMeetings prov with
    | (.error msg, ops) => (.ok { content := .text ("Error: " ++ msg), isError := true }, ops)
    | (.ok ms, ops) => (.ok { content := .meetingList ms, isError := false }, ops)
  else if req.name = "get_meeting" then
    if jsTruthyStr args.meeting_id = false then
      (.error errMeetingIdRequired, [])
    else
      match getMeeting prov (args.meeting_id.getD "") with
      | (.error msg, ops) => (.ok { content := .text ("Error: " ++ msg), isError := true }, ops)
      | (.ok m, ops) => (.ok { content := .meetingItem m, isError := false }, ops)
  else if req.name = "create_meeting" then
    if (missingCreateParams args).isEmpty = false then
      (.error (errMissingCreate args), [])
    else
      match createMeeting prov nowMs (args.summary.getD "") (args.start_time.getD "")
          (args.end_time.getD "") (args.description.getD "") (args.attendees.getD [])
          (args.time_zone.getD "UTC") with
      | (.error msg, ops) => (.ok { content := .text ("Error: " ++ msg), isError := true }, ops)
      | (.ok m, ops) => (.ok { content := .meetingItem m, isError := false }, ops)
  else if req.name = "update_meeting" then
    if jsTruthyStr args.meeting_id = false then
      (.error errMeetingIdRequired, [])
    else if updateDataEmpty (updateDataOfArgs args) then
      (.error errNoUpdateFields, [])
    else
      match updateMeeting prov (args.meeting_id.getD "") (updateDataOfArgs args) with
      | (.error msg, ops) => (.ok { content := .text ("Error: " ++ msg), isError := true }, ops)
      | (.ok m, ops) => (.ok { content := .meetingItem m, isError := false }, ops)
  else if req.name = "delete_meeting" then
    if jsTruthyStr args.meeting_id = false then
      (.error errMeetingIdRequired, [])
    else
      match deleteMeeting prov (args.meeting_id.getD "") with
      | (.error msg, ops) => (.ok { content := .text ("Error: " ++ msg), isError := true }, ops)
      | (.ok _, ops) =>
        (.ok { content := .text "Meeting successfully deleted", isError := false }, ops)
  else
    (.error (errUnknownTool req.name), [])

/-- The server's only cross-call mutable state: whether
`this.googleMeet.calendar` has been set by a successful initialization. -/
structure ServerState where
  calendarSet : Bool
deriving DecidableEq, Repr

/-- Observable effects of one handled call: whether initialization was
attempted (reading the credential and token files from disk), its refresh
and write counters, and the upstream provider operations performed. -/
structure CallEffects where
  initAttempted : Bool
  initFx : InitEffects
  providerOps : List ProviderOp
deriving DecidableEq, Repr

/-- Embedding of `handleCallTool` (index.js lines 224-402): when no
calendar client exists yet, run initialization — a failure there is
answered immediately with an `isError` envelope (`Error initializing
Google Meet API: ...`) and the state stays uninitialized; otherwise
dispatch the call. -/
def handleCallTool (env : InitEnv) (prov : Provider) (st : ServerState) (req : Request) :
    Except McpError Envelope × ServerState × CallEffects :=
  if st.calendarSet then
    let (res, ops) := dispatch prov env.now req
    (res, st, { initAttempted := false, initFx := ⟨0, 0⟩, providerOps := ops })
  else
    match initSession env with
    | (.error e, fx) =>
      (.ok { content := .text ("Error initializing Google Meet API: " ++ e), isError := true },
        st, { initAttempted := true, initFx := fx, providerOps := [] })
    | (.ok _, fx) =>
      let (res, ops) := dispatch prov env.now req
      (res, { calendarSet := true },
        { initAttempted := true, initFx := fx, providerOps := ops })

/-- A sequence of tool calls handled one after the other against the same
process state, collecting each call's response and effects. -/
def runCalls (env : InitEnv) (prov : Provider) :
    ServerState → List Request → List (Except McpError Envelope × CallEffects) × ServerState
  | st, [] => ([], st)
  | st, req :: reqs =>
    let (res, st2, fx) := handleCallTool env prov st req
    let (outs, stFinal) := runCalls env prov st2 reqs
    ((res, fx) :: outs, stFinal)

/-- The per-tool argument checks the dispatch performs before calling the
API layer: true exactly when the call reaches business logic (or needs no
check, as for `list_meetings`); false for unknown tools. -/
def passesValidation (req : Request) : Bool :=
  if req.name = "list_meetings" then true
  else if req.name = "get_meeting" then jsTruthyStr req.args.meeting_id
  else if req.name = "create_meeting" then (missingCreateParams req.args).isEmpty
  else if req.name = "update_meeting" then
    jsTruthyStr req.args.meeting_id && !(updateDataEmpty (updateDataOfArgs req.args))
  else if req.name = "delete_meeting" then jsTruthyStr req.args.meeting_id
  else false

theorem handleCallTool_initialized (env : InitEnv) (prov : Provider)
    (st : ServerState) (req : Request) (h : st.calendarSet = true) :
    handleCallTool env prov st req =
      ((dispatch prov env.now req).1, st,
        { initAttempted := false, initFx := ⟨0, 0⟩,
          providerOps := (dispatch prov env.now req).2 }) := by
  unfold handleCallTool
  rw [h]
  simp

theorem handleCallTool_initOk (env : InitEnv) (prov : Provider)
    (st : ServerState) (req : Request)
    (hcal : st.calendarSet = false) (hok : (initSession env).1 = .ok ()) :
    handleCallTool env prov st req =
      ((dispatch prov env.now req).1, { calendarSet := true },
        { initAttempted := true, initFx := (initSession env).2,
          providerOps := (dispatch prov env.now req).2 }) := by
  unfold handleCallTool
  rw [hcal]
  cases hI : initSession env with
  | mk a fx =>
    rw [hI] at hok
    simp only at hok
    subst hok
    simp

theorem handleCallTool_sessionOk (env : InitEnv) (prov : Provider)
    (st : ServerState) (req : Request)
    (hsess : st.calendarSet = true ∨ (initSession env).1 = .ok ()) :
    (handleCallTool env prov st req).1 = (dispatch prov env.now req).1 ∧
    (handleCallTool env prov st req).2.2.providerOps = (dispatch prov env.now req).2 := by
  cases hcal : st.calendarSet with
  | true => rw [handleCallTool_initialized env prov st req hcal]; exact ⟨rfl, rfl⟩
  | false =>
    have hok : (initSession env).1 = .ok () := by
      rcases hsess with h | h
      · rw [hcal] at h
        exact absurd h (by simp)
      · exact h
    rw [handleCallTool_initOk env prov st req hcal hok]
    exact ⟨rfl, rfl⟩

theorem handleCallTool_initFail (env : InitEnv) (prov : Provider)
    (st : ServerState) (req : Request) (e : String)
    (hcal : st.calendarSet = false) (herr : (initSession env).1 = .error e) :
    handleCallTool env prov st req =
      (.ok { content := .text ("Error initializing Google Meet API: " ++ e), isError := true },
        st, { initAttempted := true, initFx := (initSession env).2, providerOps := [] }) := by
  unfold handleCallTool
  rw [hcal]
  cases hI : initSession env with
  | mk a fx =>
    rw [hI] at herr
    simp only at herr
    subst herr
    simp


theorem dispatch_cases (prov : Provider) (nowMs : Nat) (req : Request) :
    (passesValidation req = true → ∀ err, (dispatch prov nowMs req).1 ≠ .error err) ∧
    (passesValidation req = false → ∃ err, (dispatch prov nowMs req).1 = .error err) ∧
    (∀ err, (dispatch prov nowMs req).1 = .error err →
      (req.name ∈ toolNames → err.code = .invalidParams) ∧
      (req.name ∉ toolNames → err = errUnknownTool req.name)) ∧
    (req.name ∉ toolNames →
      (dispatch prov nowMs req).1 = .error (errUnknownTool req.name)) := by
  by_cases h1 : req.name = "list_meetings"
  · have hmem : req.name ∈ toolNames := by simp [toolNames, h1]
    have hnoerr : ∀ err, (dispatch prov nowMs req).1 ≠ .error err := by
      intro err herr
      rcases hl : listMeetings prov with ⟨res, ops⟩
      cases res with
      | error msg => simp [dispatch, h1, hl] at herr
      | ok ms => simp [dispatch, h1, hl] at herr
    refine ⟨fun _ => hnoerr, ?_, fun err herr => absurd herr (hnoerr err),
      fun hn => absurd hmem hn⟩
    intro hp
    simp [passesValidation, h1] at hp
  · by_cases h2 : req.name = "get_meeting"
    · have hmem : req.name ∈ toolNames := by simp [toolNames, h2]
      cases hm : jsTruthyStr req.args.meeting_id with
      | false =>
        have hp : passesValidation req = false := by
          simp [passesValidation, h1, h2, hm]
        have hdisp : (dispatch prov nowMs req).1 = .error errMeetingIdRequired := by
          simp [dispatch, h1, h2, hm]
        refine ⟨?_, fun _ => ⟨errMeetingIdRequired, hdisp⟩, ?_, fun hn => absurd hmem hn⟩
        · intro hpt
          rw [hp] at hpt
          exact absurd hpt (by simp)
        · intro err herr
          rw [hdisp] at herr
          injection herr with h
          refine ⟨fun _ => ?_, fun hn => absurd hmem hn⟩
          rw [← h]
          rfl
      | true =>
        have hp : passesValidation req = true := by
          simp [passesValidation, h1, h2, hm]
        have hnoerr : ∀ err, (dispatch prov nowMs req).1 ≠ .error err := by
          intro err herr
          rcases hg : getMeeting prov (req.args.meeting_id.getD "") with ⟨res, ops⟩
          cases res with
          | error msg => simp [dispatch, h1, h2, hm, hg] at herr
          | ok m => simp [dispatch, h1, h2, hm, hg] at herr
        refine ⟨fun _ => hnoerr, ?_, fun err herr => absurd herr (hnoerr err),
          fun hn => absurd hmem hn⟩
        intro hpf
        rw [hp] at hpf
        exact absurd hpf (by simp)
    · by_cases h3 : req.name = "create_meeting"
      · have hmem : req.name ∈ toolNames := by simp [toolNames, h3]
        cases hmiss : (missingCreateParams req.args).isEmpty with
        | false =>
          have hp : passesValidation req = false := by
            simp [passesValidation, h1, h2, h3, hmiss]
          have hdisp : (dispatch prov nowMs req).1 = .error (errMissingCreate req.args) := by
            simp [dispatch, h1, h2, h3, hmiss]
          refine ⟨?_, fun _ => ⟨errMissingCreate req.args, hdisp⟩, ?_,
            fun hn => absurd hmem hn⟩
          · intro hpt
            rw [hp] at hpt
            exact absurd hpt (by simp)
          · intro err herr
            rw [hdisp] at herr
            injection herr with h
            refine ⟨fun _ => ?_, fun hn => absurd hmem hn⟩
            rw [← h]
            rfl
        | true =>
          have hp : passesValidation req = true := by
            simp [passesValidation, h1, h2, h3, hmiss]
          have hnoerr : ∀ err, (dispatch prov nowMs req).1 ≠ .error err := by
            intro err herr
            rcases hc : createMeeting prov nowMs (req.args.summary.getD "")
                (req.args.start_time.getD "") (req.args.end_time.getD "")
                (req.args.description.getD "") (req.args.attendees.getD [])
                (req.args.time_zone.getD "UTC") with ⟨res, ops⟩
            cases res with
            | error msg => simp [dispatch, h1, h2, h3, hmiss, hc] at herr
            | ok m => simp [dispatch, h1, h2, h3, hmiss, hc] at herr
          refine ⟨fun _ => hnoerr, ?_, fun err herr => absurd herr (hnoerr err),
            fun hn => absurd hmem hn⟩
          intro hpf
          rw [hp] at hpf
          exact absurd hpf (by simp)
      · by_cases h4 : req.name = "update_meeting"
        · have hmem : req.name ∈ toolNames := by simp [toolNames, h4]
          cases hm : jsTruthyStr req.args.meeting_id with
          | false =>
            have hp : passesValidation req = false := by
              simp [passesValidation, h1, h2, h3, h4, hm]
            have hdisp : (dispatch prov nowMs req).1 = .error errMeetingIdRequired := by
              simp [dispatch, h1, h2, h3, h4, hm]
            refine ⟨?_, fun _ => ⟨errMeetingIdRequired, hdisp⟩, ?_,
              fun hn => absurd hmem hn⟩
            · intro hpt
              rw [hp] at hpt
              exact absurd hpt (by simp)
            · intro err herr
              rw [hdisp] at herr
              injection herr with h
              refine ⟨fun _ => ?_, fun hn => absurd hmem hn⟩
              rw [← h]
              rfl
          | true =>
            cases hud : updateDataEmpty (updateDataOfArgs req.args) with
            | true =>
              have hp : passesValidation req = false := by
                simp [passesValidation, h1, h2, h3, h4, hm, hud]
              have hdisp : (dispatch prov nowMs req).1 = .error errNoUpdateFields := by
                simp [dispatch, h1, h2, h3, h4, hm, hud]
              refine ⟨?_, fun _ => ⟨errNoUpdateFields, hdisp⟩, ?_,
                fun hn => absurd hmem hn⟩
              · intro hpt
                rw [hp] at hpt
                exact absurd hpt (by simp)
              · intro err herr
                rw [hdisp] at herr
                injection herr with h
                refine ⟨fun _ => ?_, fun hn => absurd hmem hn⟩
                rw [← h]
                rfl
            | false =>
              have hp : passesValidation req = true := by
                simp [passesValidation, h1, h2, h3, h4, hm, hud]
              have hnoerr : ∀ err, (dispatch prov nowMs req).1 ≠ .error err := by
                intro err herr
                rcases hu : updateMeeting prov (req.args.meeting_id.getD "")
                    (updateDataOfArgs req.args) with ⟨res, ops⟩
                cases res with
                | error msg => simp [dispatch, h1, h2, h3, h4, hm, hud, hu] at herr
                | ok m => simp [dispatch, h1, h2, h3, h4, hm, hud, hu] at herr
              refine ⟨fun _ => hnoerr, ?_, fun err herr => absurd herr (hnoerr err),
                fun hn => absurd hmem hn⟩
              intro hpf
              rw [hp] at hpf
              exact absurd hpf (by simp)
        · by_cases h5 : req.name = "delete_meeting"
          · have hmem : req.name ∈ toolNames := by simp [toolNames, h5]
            cases hm : jsTruthyStr req.args.meeting_id with
            | false =>
              have hp : passesValidation req = false := by
                simp [passesValidation, h1, h2, h3, h4, h5, hm]
              have hdisp : (dispatch prov nowMs req).1 = .error errMeetingIdRequired := by
                simp [dispatch, h1, h2, h3, h4, h5, hm]
              refine ⟨?_, fun _ => ⟨errMeetingIdRequired, hdisp⟩, ?_,
                fun hn => absurd hmem hn⟩
              · intro hpt
                rw [hp] at hpt
                exact absurd hpt (by simp)
              · intro err herr
                rw [hdisp] at herr
                injection herr with h
                refine ⟨fun _ => ?_, fun hn => absurd hmem hn⟩
                rw [← h]
                rfl
            | true =>
              have hp : passesValidation req = true := by
                simp [passesValidation, h1, h2, h3, h4, h5, hm]
              have hnoerr : ∀ err, (dispatch prov nowMs req).1 ≠ .error err := by
                intro err herr
                rcases hd : deleteMeeting prov (req.args.meeting_id.getD "") with ⟨res, ops⟩
                cases res with
                | error msg => simp [dispatch, h1, h2, h3, h4, h5, hm, hd] at herr
                | ok b => simp [dispatch, h1, h2, h3, h4, h5, hm, hd] at herr
              refine ⟨fun _ => hnoerr, ?_, fun err herr => absurd herr (hnoerr err),
                fun hn => absurd hmem hn⟩
              intro hpf
              rw [hp] at hpf
              exact absurd hpf (by simp)
          · have hmem : req.name ∉ toolNames := by
              simp [toolNames, h1, h2, h3, h4, h5]
            have hdisp : (dispatch prov nowMs req).1 = .error (errUnknownTool req.name) := by
              simp [dispatch, h1, h2, h3, h4, h5]
            refine ⟨?_, fun _ => ⟨errUnknownTool req.name, hdisp⟩, ?_, fun _ => hdisp⟩
            · intro hpt
              simp [passesValidation, h1, h2, h3, h4, h5] at hpt
            · intro err herr
              rw [hdisp] at herr
              injection herr with h
              exact ⟨fun hmm => absurd hmm hmem, fun _ => h.symm⟩

/-- A provider whose every operation fails, for calls that never reach it. -/
def failProv : Provider :=
  { listItems := .error "offline"
    getEvent := fun _ => .error "offline"
    insertEvent := fun _ => .error "offline"
    updateEvent := fun _ _ => .error "offline"
    deleteEvent := fun _ => .error "offline" }

/-- An environment whose token file is missing: initialization fails with
the `No valid credentials` message. -/
def envNoToken : InitEnv :=
  { credsFile := .ok sampleCreds, tokenFile := none, now := 0, refreshResult := none }

/-- An environment with good credentials and an unexpired token:
initialization succeeds without any refresh. -/
def envReady : InitEnv :=
  { credsFile := .ok sampleCreds, tokenFile := some freshToken, now := 1000
    refreshResult := none }

/-- The provider double of the C3 witness: `get` returns an event whose
conference data has only a phone entry point. -/
def c3Prov : Provider :=
  { listItems := .ok none
    getEvent := fun _ => .ok c3PhoneEvent
    insertEvent := fun _ => .error "offline"
    updateEvent := fun _ _ => .error "offline"
    deleteEvent := fun _ => .error "offline" }

/-- The argument object of the C3 witness call. -/
def c3Args : ToolArgs := { noArgs with meeting_id := some "evt-c3" }

/-- C3: a `get_meeting` call (with a working session and a truthy
meeting_id) whose fetched event has no conferencing data, or maps to null,
is answered with an error-flagged envelope whose text carries the
`does not have Google Meet conferencing data` or `Failed to format meeting
data` message — never a null or empty successful result. -/
theorem c3_get_meeting_flagged_error (env : InitEnv) (prov : Provider)
    (st : ServerState) (args : ToolArgs) (meetingId : String) (event : Event)
    (hsess : st.calendarSet = true ∨ (initSession env).1 = .ok ())
    (hmid : args.meeting_id = some meetingId)
    (hne : meetingId ≠ "")
    (hget : prov.getEvent meetingId = .ok event)
    (hbad : event.conferenceData = none ∨ formatMeetingData event = none) :
    (handleCallTool env prov st { name := "get_meeting", args := args }).1 =
      .ok { content := .text ("Error: " ++ ("Error getting meeting: Event with ID " ++
              meetingId ++ " does not have Google Meet conferencing data"))
            isError := true } ∨
    (handleCallTool env prov st { name := "get_meeting", args := args }).1 =
      .ok { content := .text ("Error: " ++
              ("Error getting meeting: Failed to format meeting data for event ID " ++
                meetingId))
            isError := true } := by
  obtain ⟨hred, _⟩ :=
    handleCallTool_sessionOk env prov st { name := "get_meeting", args := args } hsess
  rw [hred]
  have hm : jsTruthyStr args.meeting_id = true := by
    rw [hmid]
    simpa [jsTruthyStr] using hne
  have hgd : args.meeting_id.getD "" = meetingId := by
    rw [hmid]
    rfl
  rcases getMeeting_error_cases prov meetingId event hget hbad with hc | hc
  · left
    rcases hg : getMeeting prov meetingId with ⟨res, ops⟩
    rw [hg] at hc
    simp only at hc
    subst hc
    simp [dispatch, hm, hgd, hg]
  · right
    rcases hg : getMeeting prov meetingId with ⟨res, ops⟩
    rw [hg] at hc
    simp only at hc
    subst hc
    simp [dispatch, hm, hgd, hg]

theorem c3_get_meeting_flagged_error_witness :
    (handleCallTool envNoToken c3Prov { calendarSet := true }
      { name := "get_meeting", args := c3Args }).1 =
      .ok { content := .text ("Error: " ++ ("Error getting meeting: Event with ID " ++
              "evt-c3" ++ " does not have Google Meet conferencing data"))
            isError := true } ∨
    (handleCallTool envNoToken c3Prov { calendarSet := true }
      { name := "get_meeting", args := c3Args }).1 =
      .ok { content := .text ("Error: " ++
              ("Error getting meeting: Failed to format meeting data for event ID " ++
                "evt-c3"))
            isError := true } :=
  c3_get_meeting_flagged_error envNoToken c3Prov { calendarSet := true } c3Args
    "evt-c3" c3PhoneEvent (Or.inl rfl) rfl (by decide) rfl (Or.inr (by decide))

/-- C4 counterexample: while session initialization fails (no token file),
a call with an unknown tool name is answered with an error-flagged envelope
about the initialization failure — the `MethodNotFound` protocol error is
NOT thrown, so the thrown-vs-flagged partition does not hold as stated for
calls made while initialization fails. -/
theorem c4_init_failure_counterexample :
    "frobnicate_meeting" ∉ toolNames ∧
    (handleCallTool envNoToken failProv { calendarSet := false }
      { name := "frobnicate_meeting", args := noArgs }).1 =
      .ok { content := .text ("Error initializing Google Meet API: " ++
              "No valid credentials. Please run the setup script first to authorize access.")
            isError := true } :=
  ⟨by decide, by rfl⟩

/-- The business-logic outcome a validated call branches on: the result of
the API-layer method the dispatch invokes for the tool, together with the
success payload the dispatch serializes.  (The unknown-tool arm is never
reached: dispatch throws `MethodNotFound` before any business logic.) -/
def apiCall (prov : Provider) (nowMs : Nat) (req : Request) : Except String Content :=
  if req.name = "list_meetings" then
    (listMeetings prov).1.map Content.meetingList
  else if req.name = "get_meeting" then
    (getMeeting prov (req.args.meeting_id.getD "")).1.map Content.meetingItem
  else if req.name = "create_meeting" then
    (createMeeting prov nowMs (req.args.summary.getD "") (req.args.start_time.getD "")
      (req.args.end_time.getD "") (req.args.description.getD "")
      (req.args.attendees.getD []) (req.args.time_zone.getD "UTC")).1.map Content.meetingItem
  else if req.name = "update_meeting" then
    (updateMeeting prov (req.args.meeting_id.getD "")
      (updateDataOfArgs req.args)).1.map Content.meetingItem
  else if req.name = "delete_meeting" then
    (deleteMeeting prov (req.args.meeting_id.getD "")).1.map
      fun _ => Content.text "Meeting successfully deleted"
  else .error "unknown tool"

theorem dispatch_flagged (prov : Provider) (nowMs : Nat) (req : Request)
    (hp : passesValidation req = true) :
    (∀ msg, apiCall prov nowMs req = .error msg →
      (dispatch prov nowMs req).1 =
        .ok { content := .text ("Error: " ++ msg), isError := true }) ∧
    (∀ c, apiCall prov nowMs req = .ok c →
      (dispatch prov nowMs req).1 = .ok { content := c, isError := false }) := by
  by_cases h1 : req.name = "list_meetings"
  · rcases hl : listMeetings prov with ⟨res, ops⟩
    cases res with
    | error msg0 =>
      refine ⟨fun msg hmsg => ?_, fun c hc => ?_⟩
      · simp [apiCall, Except.map, h1, hl] at hmsg
        subst hmsg
        simp [dispatch, h1, hl]
      · simp [apiCall, Except.map, h1, hl] at hc
    | ok ms =>
      refine ⟨fun msg hmsg => ?_, fun c hc => ?_⟩
      · simp [apiCall, Except.map, h1, hl] at hmsg
      · simp [apiCall, Except.map, h1, hl] at hc
        subst hc
        simp [dispatch, h1, hl]
  · by_cases h2 : req.name = "get_meeting"
    · have hm : jsTruthyStr req.args.meeting_id = true := by
        simpa [passesValidation, h1, h2] using hp
      rcases hg : getMeeting prov (req.args.meeting_id.getD "") with ⟨res, ops⟩
      cases res with
      | error msg0 =>
        refine ⟨fun msg hmsg => ?_, fun c hc => ?_⟩
        · simp [apiCall, Except.map, h1, h2, hg] at hmsg
          subst hmsg
          simp [dispatch, h1, h2, hm, hg]
        · simp [apiCall, Except.map, h1, h2, hg] at hc
      | ok m =>
        refine ⟨fun msg hmsg => ?_, fun c hc => ?_⟩
        · simp [apiCall, Except.map, h1, h2, hg] at hmsg
        · simp [apiCall, Except.map, h1, h2, hg] at hc
          subst hc
          simp [dispatch, h1, h2, hm, hg]
    · by_cases h3 : req.name = "create_meeting"
      · have hmiss : (missingCreateParams req.args).isEmpty = true := by
          simpa [passesValidation, h1, h2, h3] using hp
        rcases hc0 : createMeeting prov nowMs (req.args.summary.getD "")
            (req.args.start_time.getD "") (req.args.end_time.getD "")
            (req.args.description.getD "") (req.args.attendees.getD [])
            (req.args.time_zone.getD "UTC") with ⟨res, ops⟩
        cases res with
        | error msg0 =>
          refine ⟨fun msg hmsg => ?_, fun c hc => ?_⟩
          · simp [apiCall, Except.map, h1, h2, h3, hc0] at hmsg
            subst hmsg
            simp [dispatch, h1, h2, h3, hmiss, hc0]
          · simp [apiCall, Except.map, h1, h2, h3, hc0] at hc
        | ok m =>
          refine ⟨fun msg hmsg => ?_, fun c hc => ?_⟩
          · simp [apiCall, Except.map, h1, h2, h3, hc0] at hmsg
          · simp [apiCall, Except.map, h1, h2, h3, hc0] at hc
            subst hc
            simp [dispatch, h1, h2, h3, hmiss, hc0]
      · by_cases h4 : req.name = "update_meeting"
        · have hp2 : jsTruthyStr req.args.meeting_id = true ∧
              updateDataEmpty (updateDataOfArgs req.args) = false := by
            simpa [passesValidation, h1, h2, h3, h4] using hp
          obtain ⟨hm, hud⟩ := hp2
          rcases hu : updateMeeting prov (req.args.meeting_id.getD "")
              (updateDataOfArgs req.args) with ⟨res, ops⟩
          cases res with
          | error msg0 =>
            refine ⟨fun msg hmsg => ?_, fun c hc => ?_⟩
            · simp [apiCall, Except.map, h1, h2, h3, h4, hu] at hmsg
              subst hmsg
              simp [dispatch, h1, h2, h3, h4, hm, hud, hu]
            · simp [apiCall, Except.map, h1, h2, h3, h4, hu] at hc
          | ok m =>
            refine ⟨fun msg hmsg => ?_, fun c hc => ?_⟩
            · simp [apiCall, Except.map, h1, h2, h3, h4, hu] at hmsg
            · simp [apiCall, Except.map, h1, h2, h3, h4, hu] at hc
              subst hc
              simp [dispatch, h1, h2, h3, h4, hm, hud, hu]
        · by_cases h5 : req.name = "delete_meeting"
          · have hm : jsTruthyStr req.args.meeting_id = true := by
              simpa [passesValidation, h1, h2, h3, h4, h5] using hp
            rcases hd : deleteMeeting prov (req.args.meeting_id.getD "") with ⟨res, ops⟩
            cases res with
            | error msg0 =>
              refine ⟨fun msg hmsg => ?_, fun c hc => ?_⟩
              · simp [apiCall, Except.map, h1, h2, h3, h4, h5, hd] at hmsg
                subst hmsg
                simp [dispatch, h1, h2, h3, h4, h5, hm, hd]
              · simp [apiCall, Except.map, h1, h2, h3, h4, h5, hd] at hc
            | ok b =>
              refine ⟨fun msg hmsg => ?_, fun c hc => ?_⟩
              · simp [apiCall, Except.map, h1, h2, h3, h4, h5, hd] at hmsg
              · simp [apiCall, Except.map, h1, h2, h3, h4, h5, hd] at hc
                subst hc
                simp [dispatch, h1, h2, h3, h4, h5, hm, hd]
          · exfalso
            simp [passesValidation, h1, h2, h3, h4, h5] at hp

/-- C4 (amended): once the session is available (already initialized, or
initialization succeeds for this call), a tool call throws exactly when its
name or arguments fail validation — `MethodNotFound` carrying
`Unknown tool:` for a name outside the registry, `InvalidParams` for a
registered tool with missing/invalid params — and every other handler
failure is NOT thrown but returned as a successful envelope with `isError`
set and text `Error: <message>`, while a business-logic success comes back
with `isError` false (the thrown-vs-flagged distinction is preserved
exactly); when the session is uninitialized and initialization fails, every
call, whatever its name or params, is answered with an error-flagged
envelope reporting the initialization failure instead of a thrown protocol
error. -/
theorem c4_error_partition (env : InitEnv) (prov : Provider)
    (st : ServerState) (req : Request) :
    ((st.calendarSet = true ∨ (initSession env).1 = .ok ()) →
      ((∃ err, (handleCallTool env prov st req).1 = .error err) ↔
        passesValidation req = false) ∧
      (req.name ∉ toolNames →
        (handleCallTool env prov st req).1 = .error (errUnknownTool req.name)) ∧
      (∀ err, (handleCallTool env prov st req).1 = .error err →
        req.name ∈ toolNames → err.code = .invalidParams) ∧
      (passesValidation req = true →
        (∀ msg, apiCall prov env.now req = .error msg →
          (handleCallTool env prov st req).1 =
            .ok { content := .text ("Error: " ++ msg), isError := true }) ∧
        (∀ c, apiCall prov env.now req = .ok c →
          (handleCallTool env prov st req).1 =
            .ok { content := c, isError := false }))) ∧
    (∀ e, st.calendarSet = false → (initSession env).1 = .error e →
      (handleCallTool env prov st req).1 =
        .ok { content := .text ("Error initializing Google Meet API: " ++ e)
              isError := true }) := by
  constructor
  · intro hsess
    obtain ⟨hred, _⟩ := handleCallTool_sessionOk env prov st req hsess
    obtain ⟨hok, hthrow, hcode, hunk⟩ := dispatch_cases prov env.now req
    rw [hred]
    refine ⟨⟨?_, hthrow⟩, hunk, fun err herr hmem => (hcode err herr).1 hmem,
      fun hp => dispatch_flagged prov env.now req hp⟩
    rintro ⟨err, herr⟩
    cases hpv : passesValidation req with
    | false => rfl
    | true => exact absurd herr (hok hpv err)
  · intro e hcal herr
    rw [handleCallTool_initFail env prov st req e hcal herr]

theorem c4_error_partition_witness :
    (handleCallTool envNoToken failProv { calendarSet := false }
      { name := "get_meeting", args := noArgs }).1 =
      .ok { content := .text ("Error initializing Google Meet API: " ++
              "No valid credentials. Please run the setup script first to authorize access.")
            isError := true } ∧
    (handleCallTool envNoToken failProv { calendarSet := true }
      { name := "list_meetings", args := noArgs }).1 =
      .ok { content := .text ("Error: " ++ "Error listing meetings: offline")
            isError := true } :=
  ⟨(c4_error_partition envNoToken failProv { calendarSet := false }
      { name := "get_meeting", args := noArgs }).2
      "No valid credentials. Please run the setup script first to authorize access." rfl rfl,
   (((c4_error_partition envNoToken failProv { calendarSet := true }
      { name := "list_meetings", args := noArgs }).1 (Or.inl rfl)).2.2.2 rfl).1
      "Error listing meetings: offline" rfl⟩

/-- The argument object of the C5 witness call: a meeting_id and nothing
else. -/
def c5Args : ToolArgs := { noArgs with meeting_id := some "evt1" }

/-- C5: an `update_meeting` call (with a working session) whose arguments
carry a meeting_id but none of summary, description, start_time, end_time,
attendees throws an `InvalidParams` protocol error and performs no upstream
provider operation at all. -/
theorem c5_update_no_fields (env : InitEnv) (prov : Provider) (st : ServerState)
    (args : ToolArgs) (mid : String)
    (hsess : st.calendarSet = true ∨ (initSession env).1 = .ok ())
    (hmid : args.meeting_id = some mid)
    (hs : args.summary = none) (hd : args.description = none)
    (hst : args.start_time = none) (het : args.end_time = none)
    (hat : args.attendees = none) :
    ∃ err, (handleCallTool env prov st { name := "update_meeting", args := args }).1 =
        .error err ∧
      err.code = .invalidParams ∧
      (handleCallTool env prov st
        { name := "update_meeting", args := args }).2.2.providerOps = [] := by
  obtain ⟨hred, hops⟩ :=
    handleCallTool_sessionOk env prov st { name := "update_meeting", args := args } hsess
  rw [hred, hops]
  cases hm : jsTruthyStr args.meeting_id with
  | false =>
    exact ⟨errMeetingIdRequired, by simp [dispatch, hm], rfl, by simp [dispatch, hm]⟩
  | true =>
    have hud : updateDataEmpty (updateDataOfArgs args) = true := by
      simp [updateDataEmpty, updateDataOfArgs, hs, hd, hst, het, hat]
    exact ⟨errNoUpdateFields, by simp [dispatch, hm, hud], rfl,
      by simp [dispatch, hm, hud]⟩

theorem c5_update_no_fields_witness :
    ∃ err, (handleCallTool envNoToken failProv { calendarSet := true }
        { name := "update_meeting", args := c5Args }).1 = .error err ∧
      err.code = .invalidParams ∧
      (handleCallTool envNoToken failProv { calendarSet := true }
        { name := "update_meeting", args := c5Args }).2.2.providerOps = [] :=
  c5_update_no_fields envNoToken failProv { calendarSet := true } c5Args "evt1"
    (Or.inl rfl) rfl rfl rfl rfl rfl rfl

theorem runCalls_all_reuse (env : InitEnv) (prov : Provider) (reqs : List Request)
    (st : ServerState) (h : st.calendarSet = true) :
    ((runCalls env prov st reqs).1.all
      fun out => !out.2.initAttempted && decide (out.2.initFx = ⟨0, 0⟩)) = true ∧
    (runCalls env prov st reqs).2 = st := by
  induction reqs generalizing st with
  | nil => exact ⟨rfl, rfl⟩
  | cons r rs ih =>
    have hc := handleCallTool_initialized env prov st r h
    obtain ⟨iha, ihb⟩ := ih st h
    constructor
    · simp [runCalls, hc, iha]
    · simp [runCalls, hc, ihb]

/-- The request used by the C9 witness. -/
def listReq : Request := { name := "list_meetings", args := noArgs }

/-- C9: once a call has authenticated successfully (the in-memory calendar
context is set), every subsequent call reuses that context: initialization
is never re-attempted, so no credential or token file is re-read from disk
and no refresh or token write occurs.  (Expiry is only ever observed inside
initialization, so the refresh-on-reobserved-expiry clause is vacuous for
subsequent calls.) -/
theorem c9_session_reuse (env : InitEnv) (prov : Provider) (req : Request)
    (reqs : List Request)
    (hinit : (initSession env).1 = .ok ()) :
    (handleCallTool env prov { calendarSet := false } req).2.1 = { calendarSet := true } ∧
    ((runCalls env prov
        (handleCallTool env prov { calendarSet := false } req).2.1 reqs).1.all
      fun out => !out.2.initAttempted && decide (out.2.initFx = ⟨0, 0⟩)) = true := by
  have hfirst := handleCallTool_initOk env prov { calendarSet := false } req rfl hinit
  have hst : (handleCallTool env prov { calendarSet := false } req).2.1 =
      { calendarSet := true } := by
    rw [hfirst]
  refine ⟨hst, ?_⟩
  rw [hst]
  exact (runCalls_all_reuse env prov reqs { calendarSet := true } rfl).1

theorem c9_session_reuse_witness :
    (handleCallTool envReady failProv { calendarSet := false } listReq).2.1 =
      { calendarSet := true } ∧
    ((runCalls envReady failProv
        (handleCallTool envReady failProv { calendarSet := false } listReq).2.1
        [listReq]).1.all
      fun out => !out.2.initAttempted && decide (out.2.initFx = ⟨0, 0⟩)) = true :=
  c9_session_reuse envReady failProv listReq [listReq] rfl

/-- Replacing a JS value that is an explicit empty string by an absent one:
the transformation C10 compares against. -/
def blankToNone : Option String → Option String
  | some s => if s = "" then none else some s
  | none => none

/-- The C10 transformation: blank out every required create field that is
an explicit empty string, leaving everything else untouched. -/
def blankRequired (args : ToolArgs) : ToolArgs :=
  { args with
    summary := blankToNone args.summary
    start_time := blankToNone args.start_time
    end_time := blankToNone args.end_time }

theorem jsTruthyStr_blankToNone (o : Option String) :
    jsTruthyStr (blankToNone o) = jsTruthyStr o := by
  cases o with
  | none => rfl
  | some s =>
    by_cases hs : s = ""
    · simp [blankToNone, jsTruthyStr, hs]
    · simp [blankToNone, jsTruthyStr, hs]

/-- The argument object of the C10 witness call: an explicitly empty
summary with valid times. -/
def c10Args : ToolArgs :=
  { noArgs with
    summary := some ""
    start_time := some "2025-01-10T09:00:00Z"
    end_time := some "2025-01-10T09:30:00Z" }

/-- C10: a `create_meeting` call (with a working session) in which summary,
start_time or end_time is the explicit empty string throws `InvalidParams`
listing that field among the missing required parameters, and the whole
call behaves exactly as if every such empty field had been omitted —
required-field presence is decided by truthiness, not key presence. -/
theorem c10_empty_required_fields (env : InitEnv) (prov : Provider)
    (st : ServerState) (args : ToolArgs)
    (hsess : st.calendarSet = true ∨ (initSession env).1 = .ok ())
    (h : args.summary = some "" ∨ args.start_time = some "" ∨ args.end_time = some "") :
    (∃ err, (handleCallTool env prov st { name := "create_meeting", args := args }).1 =
        .error err ∧
      err.code = .invalidParams ∧
      err.message = "Missing required parameters: " ++
        String.intercalate ", " (missingCreateParams args)) ∧
    ((args.summary = some "" → "summary" ∈ missingCreateParams args) ∧
     (args.start_time = some "" → "start_time" ∈ missingCreateParams args) ∧
     (args.end_time = some "" → "end_time" ∈ missingCreateParams args)) ∧
    handleCallTool env prov st { name := "create_meeting", args := args } =
      handleCallTool env prov st
        { name := "create_meeting", args := blankRequired args } := by
  have hmem : "summary" ∈ missingCreateParams args ∨
      "start_time" ∈ missingCreateParams args ∨
      "end_time" ∈ missingCreateParams args := by
    rcases h with h | h | h
    · exact Or.inl (by simp [missingCreateParams, h, jsTruthyStr])
    · exact Or.inr (Or.inl (by simp [missingCreateParams, h, jsTruthyStr]))
    · exact Or.inr (Or.inr (by simp [missingCreateParams, h, jsTruthyStr]))
  have hmiss : (missingCreateParams args).isEmpty = false := by
    cases hie : (missingCreateParams args).isEmpty with
    | false => rfl
    | true =>
      exfalso
      have hnil := List.isEmpty_iff.mp hie
      rcases hmem with hm | hm | hm <;> rw [hnil] at hm <;> simp at hm
  obtain ⟨hred, _⟩ :=
    handleCallTool_sessionOk env prov st { name := "create_meeting", args := args } hsess
  refine ⟨⟨errMissingCreate args, ?_, rfl, rfl⟩, ?_, ?_⟩
  · rw [hred]
    simp [dispatch, hmiss]
  · refine ⟨fun hs => ?_, fun hs => ?_, fun hs => ?_⟩
    · simp [missingCreateParams, hs, jsTruthyStr]
    · simp [missingCreateParams, hs, jsTruthyStr]
    · simp [missingCreateParams, hs, jsTruthyStr]
  · have hmc : missingCreateParams (blankRequired args) = missingCreateParams args := by
      simp [missingCreateParams, blankRequired, jsTruthyStr_blankToNone]
    have hmiss2 : (missingCreateParams (blankRequired args)).isEmpty = false := by
      rw [hmc]
      exact hmiss
    have hdeq : dispatch prov env.now { name := "create_meeting", args := args } =
        dispatch prov env.now { name := "create_meeting", args := blankRequired args } := by
      have e1 : dispatch prov env.now { name := "create_meeting", args := args } =
          (.error (errMissingCreate args), []) := by
        simp [dispatch, hmiss]
      have e2 : dispatch prov env.now
          { name := "create_meeting", args := blankRequired args } =
          (.error (errMissingCreate (blankRequired args)), []) := by
        simp [dispatch, hmiss2]
      have e3 : errMissingCreate (blankRequired args) = errMissingCreate args := by
        simp [errMissingCreate, hmc]
      rw [e1, e2, e3]
    unfold handleCallTool
    rw [hdeq]

theorem c10_empty_required_fields_witness :
    ∃ err, (handleCallTool envNoToken failProv { calendarSet := true }
        { name := "create_meeting", args := c10Args }).1 = .error err ∧
      err.code = .invalidParams ∧
      err.message = "Missing required parameters: " ++
        String.intercalate ", " (missingCreateParams c10Args) :=
  (c10_empty_required_fields envNoToken failProv { calendarSet := true } c10Args
    (Or.inl rfl) (Or.inl rfl)).1

end AgentCal
